import Mathlib

/-!
Verification of the template-detection, template-filling and quota-tracking
core of the voice document-filling application.

Strings are modelled as lists of characters (`Str`); the Python string
operations used by the source (`in`, `split`, `strip`, `replace`, `lower`)
are translated as executable functions on `Str` below.  Python's `.lower()`
is modelled by `Char.toLower`, which agrees with it on the ASCII inputs the
program manipulates.  Dictionaries are modelled as association lists in
insertion order, matching Python's dict iteration order.
-/

abbrev Str := List Char

/-- `str s` is the character-list form of a string literal. -/
def str (s : String) : Str := s.toList

/-- Model of Python `pat` being a leading segment of `s` (used by `replaceAll`). -/
def beginsWith : Str → Str → Bool
  | [], _ => true
  | _ :: _, [] => false
  | p :: ps, c :: cs => p = c && beginsWith ps cs

/-- Model of Python's substring test `pat in hay`. -/
def containsSub (hay pat : Str) : Bool :=
  match hay with
  | [] => pat.isEmpty
  | _ :: t => beginsWith pat hay || containsSub t pat

/-- Fuelled worker for `replaceAll`; the fuel is an upper bound on the input
length, so recursion is structural and the function evaluates in the kernel. -/
def replaceAllFuel (pat repl : Str) : Nat → Str → Str
  | 0, s => s
  | _ + 1, [] => []
  | fuel + 1, c :: cs =>
    if beginsWith pat (c :: cs) then
      repl ++ replaceAllFuel pat repl fuel (cs.drop (pat.length - 1))
    else
      c :: replaceAllFuel pat repl fuel cs

/-- Model of Python `s.replace(pat, repl)`: replace every (leftmost,
non-overlapping) occurrence of `pat` in `s` by `repl`.  All call sites in the
source use a non-empty `pat` of the form `"[" + label + "]"`. -/
def replaceAll (s pat repl : Str) : Str := replaceAllFuel pat repl s.length s

/-- Model of Python `s.lower()` (ASCII case folding). -/
def toLowerStr (s : Str) : Str := s.map Char.toLower

/-- Model of Python `s.split(c)` for a single-character separator. -/
def splitOnChar (sep : Char) : Str → List Str
  | [] => [[]]
  | c :: cs =>
    let r := splitOnChar sep cs
    if c = sep then [] :: r
    else
      match r with
      | [] => [[c]]
      | y :: ys => (c :: y) :: ys

/-- Model of Python `s.strip(chars)`: remove the characters of `chars` from
both ends of `s`. -/
def stripChars (chars : Str) (s : Str) : Str :=
  ((s.dropWhile (· ∈ chars)).reverse.dropWhile (· ∈ chars)).reverse

/-! ## Quota tracker (`check_daily_quota`, `increment_api_usage`,
`get_remaining_quota`, `reset_quota_for_testing` and the caller's rollback
`st.session_state.api_usage["requests"] -= 1` in `main.py`).

Calendar dates are modelled as day ordinals (`Nat`); `today` is passed
explicitly where the source reads `datetime.now().date()`.  The request
counter is an integer with no clamping, exactly as in the source, so it can
exceed the limit or become negative. -/

structure QuotaState where
  requests : Int
  last_reset_date : Nat
deriving DecidableEq, Repr

/-- The initial `api_usage` record the source installs when none exists. -/
def init_api_usage (today : Nat) : QuotaState := ⟨0, today⟩

/-- The `if "api_usage" not in st.session_state` initialisation guard. -/
def ensure_state (today : Nat) : Option QuotaState → QuotaState
  | none => init_api_usage today
  | some s => s

/-- `check_daily_quota` from `main.py`: initialise if absent, reset the
counter on date rollover, then report whether the daily limit (20) has not
been reached.  Returns the updated state together with the boolean. -/
def check_daily_quota (today : Nat) (s : Option QuotaState) : QuotaState × Bool :=
  let s1 := ensure_state today s
  let s2 := if s1.last_reset_date ≠ today then ⟨0, today⟩ else s1
  (s2, if 20 ≤ s2.requests then false else true)

/-- `increment_api_usage` from `main.py`. -/
def increment_api_usage (today : Nat) (s : Option QuotaState) : QuotaState :=
  let s1 := ensure_state today s
  { s1 with requests := s1.requests + 1 }

/-- The caller's rollback of an optimistic increment
(`st.session_state.api_usage["requests"] -= 1`). -/
def rollback_api_usage (s : QuotaState) : QuotaState :=
  { s with requests := s.requests - 1 }

structure QuotaInfo where
  remaining_requests : Int
  total_requests : Int
  used_requests : Int
deriving DecidableEq, Repr

/-- `get_remaining_quota` from `main.py`: same initialisation and rollover
side effect as `check_daily_quota`, then a snapshot. -/
def get_remaining_quota (today : Nat) (s : Option QuotaState) : QuotaState × QuotaInfo :=
  let s1 := ensure_state today s
  let s2 := if s1.last_reset_date ≠ today then ⟨0, today⟩ else s1
  (s2, ⟨20 - s2.requests, 20, s2.requests⟩)

/-- `reset_quota_for_testing` from `main.py`. -/
def reset_quota_for_testing (today : Nat) : QuotaState := ⟨0, today⟩

/-- `n` successive calls of `increment_api_usage` within one day. -/
def iterateIncrement (today : Nat) : Nat → QuotaState → QuotaState
  | 0, s => s
  | n + 1, s => iterateIncrement today n (increment_api_usage today (some s))

lemma iterateIncrement_eq (today : Nat) (n : Nat) (s : QuotaState) :
    iterateIncrement today n s = ⟨s.requests + n, s.last_reset_date⟩ := by
  induction n generalizing s with
  | zero => simp [iterateIncrement]
  | succ n ih =>
    rw [iterateIncrement, ih]
    simp [increment_api_usage, ensure_state]
    omega

/-- Claim C5: for every quota state whose last-reset date is not today,
`check_daily_quota` resets the request count to 0 and the last-reset date to
today regardless of the prior count, and returns `true`. -/
theorem c5_date_rollover (today : Nat) (s : QuotaState)
    (h : s.last_reset_date ≠ today) :
    check_daily_quota today (some s) = (⟨0, today⟩, true) := by
  simp [check_daily_quota, ensure_state, h]

theorem c5_date_rollover_witness :
    check_daily_quota 5 (some ⟨37, 3⟩) = (⟨0, 5⟩, true) :=
  c5_date_rollover 5 ⟨37, 3⟩ (by decide)

/-- Claim C6: from a fresh quota state, within one calendar day, 20
increments make `check_daily_quota` return `false`, and a subsequent reset
makes it return `true` again. -/
theorem c6_quota_roundtrip (d : Nat) :
    (check_daily_quota d (some (iterateIncrement d 20 (init_api_usage d)))).2 = false
      ∧ (check_daily_quota d (some (reset_quota_for_testing d))).2 = true := by
  rw [iterateIncrement_eq]
  constructor
  · simp [check_daily_quota, ensure_state, init_api_usage]
  · simp [check_daily_quota, ensure_state, reset_quota_for_testing]

/-- Claim C9: within one calendar day, an increment followed by the caller's
rollback returns the request counter to its exact pre-increment value, so a
failed downstream call consumes no quota. -/
theorem c9_increment_rollback (today : Nat) (s : QuotaState) :
    rollback_api_usage (increment_api_usage today (some s)) = s := by
  cases s
  simp [rollback_api_usage, increment_api_usage, ensure_state]

/-- Claim C10: the remaining-quota snapshot always has `total_requests = 20`
and `remaining_requests = 20 - used_requests`; since nothing clamps the
counter, `remaining_requests` is negative once more than 20 increments have
happened that day (shown both in general and after 21 concrete increments),
and `used_requests` can be negative after an unmatched rollback. -/
theorem c10_remaining_quota :
    (∀ (today : Nat) (s : Option QuotaState),
        (get_remaining_quota today s).2.total_requests = 20
          ∧ (get_remaining_quota today s).2.remaining_requests =
              20 - (get_remaining_quota today s).2.used_requests)
      ∧ (∀ (today : Nat) (s : Option QuotaState),
          20 < (get_remaining_quota today s).2.used_requests →
            (get_remaining_quota today s).2.remaining_requests < 0)
      ∧ (get_remaining_quota 0
            (some (iterateIncrement 0 21 (init_api_usage 0)))).2.remaining_requests < 0
      ∧ (get_remaining_quota 0
            (some (rollback_api_usage (init_api_usage 0)))).2.used_requests < 0 := by
  refine ⟨?_, ?_, by decide, by decide⟩
  · intro today s
    constructor <;> simp [get_remaining_quota]
  · intro today s h
    simp only [get_remaining_quota] at h ⊢
    omega

theorem c10_remaining_quota_witness :
    (get_remaining_quota 0 (some ⟨25, 0⟩)).2.remaining_requests < 0 :=
  c10_remaining_quota.2.1 0 (some ⟨25, 0⟩) (by decide)

/-! ## Template detection and filling (`is_template`,
`fill_template_from_dict` and its static `field_mappings` table in
`main.py`). -/

/-- `is_template` from `main.py`: Python's `and` binds tighter than `or`. -/
def is_template (t : Str) : Bool :=
  containsSub t (str "[") && containsSub t (str "]")
    || containsSub t (str "\x7b\x7b") && containsSub t (str "\x7d\x7d")

/-- The `field_mappings` dict literal inside `fill_template_from_dict`,
in declaration order. -/
def field_mappings : List (Str × List Str) :=
  [ (str "Full Name", [str "Name", str "Full Name", str "Employee Name", str "Person Name"]),
    (str "Name", [str "Name", str "Full Name", str "Employee Name", str "Person Name"]),
    (str "Department", [str "Department", str "Dept", str "Team", str "Division"]),
    (str "Company", [str "Company", str "Organization", str "Organization Name", str "Employer"]),
    (str "Start Date", [str "Start Date", str "Joining Date", str "Hire Date", str "Date Joined"]),
    (str "Job Title", [str "Job Title", str "Position", str "Role", str "Designation"]),
    (str "Manager Name", [str "Manager Name", str "Manager", str "Supervisor", str "Reporting To"]),
    (str "Employee ID", [str "Employee ID", str "ID", str "Employee Number", str "Staff ID"]),
    (str "Annual Salary", [str "Annual Salary", str "Salary", str "Compensation", str "Pay"]) ]

/-- `f"[{label}]"`. -/
def bracket (label : Str) : Str := '[' :: (label ++ [']'])

/-- The inner synonym scan: the first variation whose bracket form occurs in
the working text. -/
def findFirstBracket (filled : Str) : List Str → Option Str
  | [] => none
  | v :: vs => if containsSub filled (bracket v) then some v else findFirstBracket filled vs

/-- The tier-2 outer loop over `field_mappings.items()`: for each entry whose
variation list contains the key, replace the first variation whose bracket
form is present; if none of that entry's variations is present the scan
continues with the remaining entries (`matched` stays false). -/
def tier2 (filled key value : Str) : List (Str × List Str) → Option Str
  | [] => none
  | (_, variations) :: rest =>
    if key ∈ variations then
      match findFirstBracket filled variations with
      | some v => some (replaceAll filled (bracket v) value)
      | none => tier2 filled key value rest
    else tier2 filled key value rest

/-- The tier-3 fuzzy condition
`key.lower() in p.lower() or p.lower() in key.lower()`. -/
def fuzzyMatches (key p : Str) : Bool :=
  containsSub (toLowerStr p) (toLowerStr key) || containsSub (toLowerStr key) (toLowerStr p)

/-- The tier-3 loop body over a candidate list: first fuzzy-matching
candidate has its bracket form replaced, then the loop breaks. -/
def tier3On (filled key value : Str) : List Str → Str
  | [] => filled
  | p :: ps =>
    if fuzzyMatches key p then replaceAll filled (bracket p) value
    else tier3On filled key value ps

/-- The tier-3 candidate list
`[p.strip("[]") for p in template_text.split("[") if "]" in p]`: chunks of
the ORIGINAL template text split on `[` that contain `]`, each stripped of
leading and trailing bracket characters. -/
def fuzzyCandidates (template : Str) : List Str :=
  ((splitOnChar '[' template).filter (fun p => containsSub p (str "]"))).map
    (stripChars (str "[]"))

/-- One iteration of `fill_template_from_dict`'s key loop: exact bracket
match, else synonym tier, else fuzzy tier. -/
def processKey (template filled key value : Str) : Str :=
  if containsSub filled (bracket key) then replaceAll filled (bracket key) value
  else
    match tier2 filled key value field_mappings with
    | some r => r
    | none => tier3On filled key value (fuzzyCandidates template)

/-- `fill_template_from_dict` from `main.py`. -/
def fill_template_from_dict (template : Str) (data : List (Str × Str)) : Str :=
  data.foldl (fun acc kv => processKey template acc kv.1 kv.2) template

lemma beginsWith_iff (p s : Str) : beginsWith p s = true ↔ p <+: s := by
  induction p generalizing s with
  | nil => simp [beginsWith]
  | cons a p ih =>
    cases s with
    | nil => simp [beginsWith]
    | cons b t => simp [beginsWith, List.cons_prefix_cons, ih]

lemma containsSub_iff (hay pat : Str) : containsSub hay pat = true ↔ pat <:+: hay := by
  induction hay with
  | nil => simp [containsSub, List.isEmpty_iff]
  | cons c t ih => simp [containsSub, beginsWith_iff, ih, List.infix_cons_iff]

/-- Claim C8: `is_template` is a total function that returns `true` exactly
when the text contains both `[` and `]` as substrings or contains both
`\x7b\x7b` and `\x7d\x7d` as substrings; in particular it is `true` on
`"Hello [Name]"` and on the double-brace greeting, and `false` on
`"Hello Name"` and on the empty string. -/
theorem c8_is_template :
    (∀ t : Str, is_template t = true ↔
        ((str "[" <:+: t ∧ str "]" <:+: t)
          ∨ (str "\x7b\x7b" <:+: t ∧ str "\x7d\x7d" <:+: t)))
      ∧ is_template (str "Hello [Name]") = true
      ∧ is_template (str "Hello \x7b\x7bname\x7d\x7d") = true
      ∧ is_template (str "Hello Name") = false
      ∧ is_template (str "") = false := by
  refine ⟨?_, by decide, by decide, by decide, by decide⟩
  intro t
  simp [is_template, containsSub_iff]

/-- The eight canonical field names claim C2 asserts to be the exact key set
of the mapping table. -/
def canonical_eight : List Str :=
  [str "Full Name", str "Employee ID", str "Department", str "Company",
   str "Start Date", str "Job Title", str "Manager Name", str "Annual Salary"]

/-- Counterexample to claim C2: `"Name"` is a key of `field_mappings` but is
not among the eight canonical field names, so the table does not have exactly
those eight keys. -/
theorem c2_counterexample :
    str "Name" ∈ field_mappings.map Prod.fst ∧ str "Name" ∉ canonical_eight := by
  decide

/-- Claim C2 (amended): the mapping table's keys are exactly nine: the eight
canonical field names plus the extra key `"Name"`. -/
theorem c2_amended_nine_keys (k : Str) :
    k ∈ field_mappings.map Prod.fst ↔ k ∈ str "Name" :: canonical_eight :=
  List.Perm.mem_iff (by decide)

lemma findFirstBracket_first (filled : Str) (v₁ v₂ : List Str) (s : Str)
    (hv : ∀ u ∈ v₁, containsSub filled (bracket u) = false)
    (hs : containsSub filled (bracket s) = true) :
    findFirstBracket filled (v₁ ++ s :: v₂) = some s := by
  induction v₁ with
  | nil => simp [findFirstBracket, hs]
  | cons a v ih =>
    have ha := hv a (by simp)
    simp only [List.cons_append, findFirstBracket, ha, if_false, Bool.false_eq_true]
    exact ih fun u hu => hv u (by simp [hu])

lemma tier2_skip (filled key value : Str) (l₁ rest : List (Str × List Str))
    (h : ∀ e ∈ l₁, key ∉ e.2) :
    tier2 filled key value (l₁ ++ rest) = tier2 filled key value rest := by
  induction l₁ with
  | nil => simp
  | cons e l ih =>
    obtain ⟨ck, vars⟩ := e
    have he : key ∉ vars := h (ck, vars) (by simp)
    simp only [List.cons_append, tier2, he, if_false]
    exact ih fun u hu => h u (by simp [hu])

lemma tier2_found (filled key value : Str) (l₁ l₂ : List (Str × List Str))
    (ck : Str) (vars v₁ v₂ : List Str) (s : Str)
    (hpre : ∀ e ∈ l₁, key ∉ e.2)
    (hk : key ∈ vars)
    (hvars : vars = v₁ ++ s :: v₂)
    (hv : ∀ u ∈ v₁, containsSub filled (bracket u) = false)
    (hs : containsSub filled (bracket s) = true) :
    tier2 filled key value (l₁ ++ (ck, vars) :: l₂) =
      some (replaceAll filled (bracket s) value) := by
  rw [tier2_skip _ _ _ _ _ hpre]
  subst hvars
  simp [tier2, hk, findFirstBracket_first _ _ _ _ hv hs]

/-- Claim C7: when a key's exact bracket form is absent from the working
text and the first mapping entry whose synonym list contains the key
(case-sensitively) has `s` as the first synonym whose bracket form occurs in
the working text, the key's processing step replaces that marker and stops;
in particular filling `"Team: [Department]"` with `{"Dept": "Engineering"}`
yields `"Team: Engineering"`. -/
theorem c7_synonym_tier :
    (∀ (template filled key value : Str) (l₁ l₂ : List (Str × List Str))
        (ck : Str) (vars v₁ v₂ : List Str) (s : Str),
        containsSub filled (bracket key) = false →
        field_mappings = l₁ ++ (ck, vars) :: l₂ →
        (∀ e ∈ l₁, key ∉ e.2) →
        key ∈ vars →
        vars = v₁ ++ s :: v₂ →
        (∀ u ∈ v₁, containsSub filled (bracket u) = false) →
        containsSub filled (bracket s) = true →
        processKey template filled key value = replaceAll filled (bracket s) value)
      ∧ fill_template_from_dict (str "Team: [Department]")
          [(str "Dept", str "Engineering")] = str "Team: Engineering" := by
  refine ⟨?_, by decide⟩
  intro template filled key value l₁ l₂ ck vars v₁ v₂ s h1 hfm hpre hk hvars hv hs
  have ht2 : tier2 filled key value field_mappings =
      some (replaceAll filled (bracket s) value) := by
    rw [hfm]
    exact tier2_found filled key value l₁ l₂ ck vars v₁ v₂ s hpre hk hvars hv hs
  simp [processKey, h1, ht2]

theorem c7_synonym_tier_witness :
    processKey (str "Team: [Department]") (str "Team: [Department]")
        (str "Dept") (str "Engineering")
      = replaceAll (str "Team: [Department]") (bracket (str "Department"))
          (str "Engineering") :=
  c7_synonym_tier.1 (str "Team: [Department]") (str "Team: [Department]")
    (str "Dept") (str "Engineering")
    [ (str "Full Name", [str "Name", str "Full Name", str "Employee Name", str "Person Name"]),
      (str "Name", [str "Name", str "Full Name", str "Employee Name", str "Person Name"]) ]
    [ (str "Company", [str "Company", str "Organization", str "Organization Name", str "Employer"]),
      (str "Start Date", [str "Start Date", str "Joining Date", str "Hire Date", str "Date Joined"]),
      (str "Job Title", [str "Job Title", str "Position", str "Role", str "Designation"]),
      (str "Manager Name", [str "Manager Name", str "Manager", str "Supervisor", str "Reporting To"]),
      (str "Employee ID", [str "Employee ID", str "ID", str "Employee Number", str "Staff ID"]),
      (str "Annual Salary", [str "Annual Salary", str "Salary", str "Compensation", str "Pay"]) ]
    (str "Department") [str "Department", str "Dept", str "Team", str "Division"]
    [] [str "Dept", str "Team", str "Division"] (str "Department")
    (by decide) (by decide) (by decide) (by decide) (by decide) (by decide) (by decide)

/-- Candidate placeholder labels as claim C1 words them: one candidate per
occurrence of `[` whose following chunk contains `]`, the candidate being the
substring strictly between that `[` and the next `]`.  This is the claim's
description, written out to compare with `fuzzyCandidates`, which is the
code's actual derivation. -/
def claimC1Candidates (template : Str) : List Str :=
  match splitOnChar '[' template with
  | [] => []
  | _ :: chunks =>
    (chunks.filter fun p => containsSub p (str "]")).map fun p =>
      p.takeWhile fun ch => ch ≠ ']'

/-- The fill pass as claim C1 describes it: identical to
`fill_template_from_dict` except that the fuzzy tier scans
`claimC1Candidates` instead of the code's `fuzzyCandidates`. -/
def processKeyClaimC1 (template filled key value : Str) : Str :=
  if containsSub filled (bracket key) then replaceAll filled (bracket key) value
  else
    match tier2 filled key value field_mappings with
    | some r => r
    | none => tier3On filled key value (claimC1Candidates template)

def fillClaimC1 (template : Str) (data : List (Str × Str)) : Str :=
  data.foldl (fun acc kv => processKeyClaimC1 template acc kv.1 kv.2) template

/-- Counterexample to claim C1: on `"Call [Phone] now"` with key
`"Phonebook"`, the claimed algorithm takes `"Phone"` as the candidate label
(`"phone"` is a substring of `"phonebook"`) and substitutes, but the code's
candidate is the bracket-stripped chunk `"Phone] now"`, which matches
nothing, so the code leaves the template unchanged. -/
theorem c1_counterexample :
    fill_template_from_dict (str "Call [Phone] now") [(str "Phonebook", str "X")]
        = str "Call [Phone] now"
      ∧ fillClaimC1 (str "Call [Phone] now") [(str "Phonebook", str "X")]
          = str "Call X now"
      ∧ fill_template_from_dict (str "Call [Phone] now") [(str "Phonebook", str "X")]
          ≠ fillClaimC1 (str "Call [Phone] now") [(str "Phonebook", str "X")] := by
  refine ⟨by decide, by decide, by decide⟩

/-- Claim C1 (amended): the fuzzy tier's candidates are the chunks of the
ORIGINAL template text split on `[` that contain `]` (including the chunk
before the first `[`), each stripped of leading and trailing `[` and `]`
characters — not the substrings between `[` and `]`.  When the exact tier
and the synonym tier both fail, the first such candidate whose lowercased
form is a substring of the lowercased key or conversely has its bracket form
replaced, and processing of that key stops.  The concrete conjunct shows a
candidate (`"Phone] now, "`) that is not a between-brackets substring. -/
theorem c1_fuzzy_tier :
    (∀ (template filled key value : Str) (pre rest : List Str) (c : Str),
        containsSub filled (bracket key) = false →
        tier2 filled key value field_mappings = none →
        ((splitOnChar '[' template).filter fun p => containsSub p (str "]")).map
            (stripChars (str "[]")) = pre ++ c :: rest →
        (∀ u ∈ pre, fuzzyMatches key u = false) →
        fuzzyMatches key c = true →
        processKey template filled key value = replaceAll filled (bracket c) value)
      ∧ fuzzyCandidates (str "Call [Phone] now, [Dept]")
          = [str "Phone] now, ", str "Dept"] := by
  refine ⟨?_, by decide⟩
  intro template filled key value pre rest c h1 h2 hcand hpre hc
  have h3 : tier3On filled key value (fuzzyCandidates template) =
      replaceAll filled (bracket c) value := by
    rw [show fuzzyCandidates template = pre ++ c :: rest from hcand]
    clear hcand
    induction pre with
    | nil => simp [tier3On, hc]
    | cons a l ih =>
      have ha := hpre a (by simp)
      simp only [List.cons_append, tier3On, ha, if_false, Bool.false_eq_true]
      exact ih fun u hu => hpre u (by simp [hu])
  simp [processKey, h1, h2, h3]

theorem c1_fuzzy_tier_witness :
    processKey (str "Hi [Name]") (str "Hi [Name]") (str "Nickname") (str "Bob")
      = replaceAll (str "Hi [Name]") (bracket (str "Name")) (str "Bob") :=
  c1_fuzzy_tier.1 (str "Hi [Name]") (str "Hi [Name]") (str "Nickname") (str "Bob")
    [] [] (str "Name")
    (by decide) (by decide) (by decide) (by decide) (by decide)

/-! ## Caller-side handling of collaborator results (`main.py`): the branch
on `llm_client.extract_info`'s result and the transcription-failure abort. -/

inductive TemplateOutcome where
  | quotaExceeded (message : Option Str)
  | processed (filledText : Str)
  | extractionEmpty
deriving DecidableEq, Repr

/-- The caller's handling of `llm_client.extract_info`'s result in the
template workflow of `main.py`: it tests
`extracted_info.get("error") == "RESOURCE_EXHAUSTED"`, then
`elif extracted_info:` (non-empty dict) runs `fill_template_from_dict`,
else warns that nothing was extracted. -/
def handle_extracted_info (doc : Str) (info : List (Str × Str)) : TemplateOutcome :=
  if info.lookup (str "error") = some (str "RESOURCE_EXHAUSTED") then
    TemplateOutcome.quotaExceeded (info.lookup (str "message"))
  else if info ≠ [] then
    TemplateOutcome.processed (fill_template_from_dict doc info)
  else TemplateOutcome.extractionEmpty

/-- Claim C3 (code bug): the caller branches only on the specific value
`RESOURCE_EXHAUSTED`, not on the presence of an `error` key.  Evaluating it
at the `API_ERROR` result that `extract_info` documents returning shows that
an error-carrying map IS passed to the template filler as field data (the
non-empty dict is truthy), while the `RESOURCE_EXHAUSTED` result is
intercepted. -/
theorem c3_error_key_reaches_filler :
    handle_extracted_info (str "Hello [Name]")
        [(str "error", str "API_ERROR"), (str "message", str "An API error occurred: x")]
      = TemplateOutcome.processed
          (fill_template_from_dict (str "Hello [Name]")
            [(str "error", str "API_ERROR"), (str "message", str "An API error occurred: x")])
      ∧ handle_extracted_info (str "Hello [Name]")
          [(str "error", str "RESOURCE_EXHAUSTED"), (str "message", str "quota")]
        = TemplateOutcome.quotaExceeded (some (str "quota")) := by
  refine ⟨by decide, by decide⟩

inductive SttFailure where
  | unknownValue
  | requestError
  | genericError
deriving DecidableEq, Repr

/-- The sentinel text `STTHandler.transcribe` in `stt.py` returns on each of
its three failure paths: `sr.UnknownValueError`, `sr.RequestError`, and any
other exception. -/
def transcribe_failure_text : SttFailure → Str
  | SttFailure.unknownValue => str "Sorry, I could not understand that."
  | SttFailure.requestError => str "Error connecting to speech service."
  | SttFailure.genericError => str "An error occurred."

/-- The caller's abort test in `main.py`:
`if "error" in user_text.lower()` ends the turn and records a user-visible
error. -/
def transcription_aborts_turn (user_text : Str) : Bool :=
  containsSub (toLowerStr user_text) (str "error")

/-- Counterexample to claim C4: the unrecognized-speech failure path returns
the sentinel `"Sorry, I could not understand that."`, which does not contain
the word "error" in any case, so the caller does not abort the turn for this
transcription failure. -/
theorem c4_counterexample :
    transcribe_failure_text SttFailure.unknownValue
        = str "Sorry, I could not understand that."
      ∧ transcription_aborts_turn (transcribe_failure_text SttFailure.unknownValue)
          = false := by
  refine ⟨by decide, by decide⟩

/-- Claim C4 (amended): the caller aborts the turn exactly when the
lowercased transcript contains "error"; the connection-failure and
unexpected-exception sentinels contain "error" and so abort the turn, but
the unrecognized-speech sentinel does not contain "error" and its turn
continues. -/
theorem c4_amended_sentinels :
    (∀ t : Str, transcription_aborts_turn t = true ↔ str "error" <:+: toLowerStr t)
      ∧ transcription_aborts_turn (transcribe_failure_text SttFailure.requestError) = true
      ∧ transcription_aborts_turn (transcribe_failure_text SttFailure.genericError) = true
      ∧ transcription_aborts_turn (transcribe_failure_text SttFailure.unknownValue) = false := by
  refine ⟨?_, by decide, by decide, by decide⟩
  intro t
  simp [transcription_aborts_turn, containsSub_iff]
